import Mathlib

/-!
Verification development for the rpi_cham device controller (src/final.py).

The file shallowly embeds the concurrency and resource-coordination core of
the program:

* the `shutdown_monitor` background loop (lines 97-128) as a per-tick
  transition function on a monitor state;
* the `capture_image` pipeline (lines 130-163) as a pure function from an
  environment of call outcomes to a result together with a trace of effects;
* the `blink` single-flight signal (lines 68-84) as a state machine over a
  busy flag;
* the passive status routes and the toggle routes (lines 176-244) as state
  transformers on the server state;
* the interleaving of the streaming frame producer (`generate_frames`,
  lines 254-274) with `capture_image` around `camera_lock` as a step
  relation, with mutual exclusion proved as an inductive invariant.

Durations are `time.time()` differences in the source, real-valued; they are
modelled as rationals.
-/

namespace RpiCham

/-- Seconds as produced by `time.time()` subtraction in the source; the
floating-point clock is modelled by rationals. -/
abbrev Seconds := ℚ

/-! ### The shutdown monitor (src/final.py lines 97-128)

One iteration of the `while True` body of `shutdown_monitor`, after the
5-second sleep, reads a snapshot `(duration, is_client_active)` under
`state_lock` and then

* fires the shutdown action (warning blinks plus the `sudo poweroff` call,
  line 110-117) when `duration > 900` and the client is not active;
* enters idle mode (forcing both status LEDs off, lines 119-125) when
  `duration > 300` and the local `idle_mode_active` flag is clear, setting
  the flag;
* clears the flag when `duration <= 300` (lines 126-128).

`sudo poweroff` powers the system off; the monitor process dies with it.
This is modelled by a `halted` flag that becomes true at the end of the tick
that fired the shutdown (the `check_call` returns and the rest of the tick
body still runs, but no further tick is executed on a powered-off system).
-/

/-- Snapshot read under `state_lock` at the top of a monitor tick:
`duration = time.time() - timer` and `is_client_active = client_status["status"]`. -/
structure MonitorInput where
  duration : Seconds
  clientActive : Bool
deriving DecidableEq

/-- State carried across ticks of `shutdown_monitor`: the local
`idle_mode_active` flag, plus whether the system has powered off. -/
structure MonitorState where
  idleModeActive : Bool
  halted : Bool
deriving DecidableEq

/-- Observable actions a monitor tick can emit: the shutdown sequence
(warning blinks and `sudo poweroff`, lines 111-117) and the idle-mode
forcing of both status LEDs off (lines 122-124). -/
inductive MonitorAction where
  | shutdown
  | idleForce
deriving DecidableEq

/-- Initial monitor state: `idle_mode_active = False` (line 100) and the
system running. -/
def monitorInit : MonitorState :=
  { idleModeActive := false, halted := false }

/-- The shutdown condition of line 110: `duration > 900 and not is_client_active`. -/
def shutdownFires (inp : MonitorInput) : Bool :=
  decide (inp.duration > 900) && !inp.clientActive

/-- One tick of `shutdown_monitor` (lines 102-128): the shutdown check of
line 110 runs first, then the idle-mode check of line 120; the emitted
action list records the actions in source order. A halted (powered-off)
system performs no tick. -/
def monitorTick (s : MonitorState) (inp : MonitorInput) : MonitorState × List MonitorAction :=
  if s.halted then (s, [])
  else
    let shutdownActs : List MonitorAction :=
      if shutdownFires inp then [MonitorAction.shutdown] else []
    if inp.duration > 300 then
      if s.idleModeActive then
        ({ idleModeActive := true, halted := shutdownFires inp }, shutdownActs)
      else
        ({ idleModeActive := true, halted := shutdownFires inp },
          shutdownActs ++ [MonitorAction.idleForce])
    else
      ({ idleModeActive := false, halted := shutdownFires inp }, shutdownActs)

/-- A run of the monitor over a list of tick inputs, collecting the action
list of every tick. -/
def monitorRun (s : MonitorState) : List MonitorInput → MonitorState × List (List MonitorAction)
  | [] => (s, [])
  | inp :: rest =>
    let t := monitorTick s inp
    let r := monitorRun t.1 rest
    (r.1, t.2 :: r.2)

/-- Number of occurrences of an element in a list. -/
def countOcc {α : Type} [DecidableEq α] (a : α) : List α → Nat
  | [] => 0
  | b :: l => (if b = a then 1 else 0) + countOcc a l

/-- Number of occurrences of an element across a list of lists. -/
def countOccAll {α : Type} [DecidableEq α] (a : α) : List (List α) → Nat
  | [] => 0
  | l :: ls => countOcc a l + countOccAll a ls

theorem countOcc_append {α : Type} [DecidableEq α] (a : α) (l1 l2 : List α) :
    countOcc a (l1 ++ l2) = countOcc a l1 + countOcc a l2 := by
  induction l1 with
  | nil => simp [countOcc]
  | cons b l ih => simp [countOcc, ih]; omega

/-- Unfolding of a non-halted tick: the new flag is exactly
`duration > 300`, the system halts exactly when the shutdown fired, and the
actions are the shutdown (if fired) followed by the idle forcing (if the
idle condition holds with the flag clear). -/
theorem monitorTick_eq (s : MonitorState) (inp : MonitorInput) (hs : s.halted = false) :
    monitorTick s inp =
      ({ idleModeActive := decide (inp.duration > 300), halted := shutdownFires inp },
        (if shutdownFires inp then [MonitorAction.shutdown] else []) ++
        (if inp.duration > 300 ∧ s.idleModeActive = false then [MonitorAction.idleForce] else [])) := by
  by_cases h3 : inp.duration > 300 <;> by_cases hi : s.idleModeActive <;>
    simp [monitorTick, hs, h3, hi]

theorem monitorTick_halted (s : MonitorState) (inp : MonitorInput) (hs : s.halted = true) :
    monitorTick s inp = (s, []) := by
  simp [monitorTick, hs]

theorem monitorRun_halted (a : MonitorAction) (inputs : List MonitorInput)
    (s : MonitorState) (hs : s.halted = true) :
    countOccAll a (monitorRun s inputs).2 = 0 := by
  induction inputs with
  | nil => simp [monitorRun, countOccAll]
  | cons inp rest ih =>
    simp [monitorRun, monitorTick_halted s inp hs, countOccAll, countOcc, ih]

/-- Across a run from a live state, the shutdown action is emitted exactly
once when some tick satisfies the condition of line 110, and never
otherwise. -/
theorem shutdown_count_run (inputs : List MonitorInput) :
    ∀ s : MonitorState, s.halted = false →
      countOccAll MonitorAction.shutdown (monitorRun s inputs).2 =
        (if inputs.any shutdownFires then 1 else 0) := by
  induction inputs with
  | nil => intro s hs; simp [monitorRun, countOccAll]
  | cons inp rest ih =>
    intro s hs
    simp only [monitorRun, countOccAll]
    rw [monitorTick_eq s inp hs]
    by_cases hf : shutdownFires inp
    · by_cases h3 : inp.duration > 300 ∧ s.idleModeActive = false <;>
        simp [hf, h3, countOcc, countOcc_append, List.any_cons] <;>
        exact monitorRun_halted _ rest _ rfl
    · have hlive : ({ idleModeActive := decide (inp.duration > 300),
                      halted := shutdownFires inp } : MonitorState).halted = false := by
        simp [hf]
      rw [ih _ hlive]
      by_cases h3 : inp.duration > 300 ∧ s.idleModeActive = false <;>
        simp [hf, h3, countOcc, countOcc_append, List.any_cons]

theorem halted_false_of_ne (s : MonitorState) (hh : ¬ s.halted = true) : s.halted = false := by
  revert hh; cases s.halted <;> simp

theorem shutdownFires_iff (inp : MonitorInput) :
    shutdownFires inp = true ↔ inp.duration > 900 ∧ inp.clientActive = false := by
  simp [shutdownFires]

/-- Across a run whose tick durations all exceed 300 seconds, no idle
forcing is emitted when the flag starts set or the system starts halted. -/
theorem idle_count_zero (inputs : List MonitorInput) :
    (∀ i ∈ inputs, i.duration > 300) →
    ∀ s : MonitorState, s.idleModeActive = true ∨ s.halted = true →
      countOccAll MonitorAction.idleForce (monitorRun s inputs).2 = 0 := by
  induction inputs with
  | nil => intro _ s _; simp [monitorRun, countOccAll]
  | cons inp rest ih =>
    intro hall s hs
    simp only [monitorRun, countOccAll]
    by_cases hh : s.halted = true
    · rw [monitorTick_halted s inp hh]
      simp only [countOcc, Nat.zero_add]
      exact ih (fun i hi => hall i (List.mem_cons_of_mem _ hi)) s (Or.inr hh)
    · have hs2 : s.halted = false := halted_false_of_ne s hh
      have hflag : s.idleModeActive = true := hs.resolve_right hh
      have h3 : inp.duration > 300 := hall inp (List.mem_cons_self _ _)
      have hno : ¬ (inp.duration > 300 ∧ s.idleModeActive = false) := by simp [hflag]
      rw [monitorTick_eq s inp hs2]
      by_cases hf : shutdownFires inp <;>
        simp [hf, hno, countOcc, countOcc_append] <;>
        exact ih (fun i hi => hall i (List.mem_cons_of_mem _ hi)) _ (Or.inl (by simp [h3]))

/-- C2: on every tick of the shutdown monitor, if the client is connected
the power-off action does not fire; on a live tick it fires exactly when the
idle duration exceeds 900 seconds and the client is not connected; and over
every run from the initial state it fires exactly once when some tick meets
that condition, and never otherwise. -/
theorem shutdown_exactly_once (s : MonitorState) (inp : MonitorInput)
    (inputs : List MonitorInput) :
    (inp.clientActive = true → MonitorAction.shutdown ∉ (monitorTick s inp).2) ∧
    (s.halted = false →
      (MonitorAction.shutdown ∈ (monitorTick s inp).2 ↔
        inp.duration > 900 ∧ inp.clientActive = false)) ∧
    countOccAll MonitorAction.shutdown (monitorRun monitorInit inputs).2 =
      (if inputs.any shutdownFires then 1 else 0) := by
  refine ⟨?_, ?_, shutdown_count_run inputs monitorInit rfl⟩
  · intro hc
    by_cases hh : s.halted = true
    · simp [monitorTick_halted s inp hh]
    · have hs2 : s.halted = false := halted_false_of_ne s hh
      have hf : shutdownFires inp = false := by simp [shutdownFires, hc]
      rw [monitorTick_eq s inp hs2]
      by_cases h3 : inp.duration > 300 ∧ s.idleModeActive = false <;> simp [hf, h3]
  · intro hs2
    rw [monitorTick_eq s inp hs2, ← shutdownFires_iff inp]
    by_cases hf : shutdownFires inp <;>
      by_cases h3 : inp.duration > 300 ∧ s.idleModeActive = false <;>
      simp [hf, h3]

theorem shutdown_exactly_once_witness :
    MonitorAction.shutdown ∉
      (monitorTick monitorInit { duration := 1000, clientActive := true }).2 ∧
    countOccAll MonitorAction.shutdown
      (monitorRun monitorInit
        [{ duration := 1000, clientActive := false },
         { duration := 1005, clientActive := false }]).2 = 1 := by
  constructor
  · exact (shutdown_exactly_once monitorInit
      { duration := 1000, clientActive := true } []).1 rfl
  · rw [(shutdown_exactly_once monitorInit
      { duration := 0, clientActive := true }
      [{ duration := 1000, clientActive := false },
       { duration := 1005, clientActive := false }]).2.2]
    decide

/-- C3 as written is refuted: on the tick of the initial state with idle
duration 1000 and no connected client, both conditions hold, yet the tick
emits the shutdown action before the idle forcing, because line 110 of the
source runs before line 120; the claimed idle-then-shutdown order does not
occur. -/
theorem shutdown_checked_first_counterexample :
    (monitorTick monitorInit { duration := 1000, clientActive := false }).2 =
      [MonitorAction.shutdown, MonitorAction.idleForce] ∧
    (monitorTick monitorInit { duration := 1000, clientActive := false }).2 ≠
      [MonitorAction.idleForce, MonitorAction.shutdown] := by
  decide

/-- C3 amended: the shutdown condition is evaluated before the idle
condition on every tick; when both are due on a single live tick, both
actions occur on that tick, the shutdown action first. -/
theorem shutdown_then_idle_same_tick (s : MonitorState) (inp : MonitorInput)
    (hh : s.halted = false) (hi : s.idleModeActive = false)
    (hd : inp.duration > 900) (hc : inp.clientActive = false) :
    (monitorTick s inp).2 = [MonitorAction.shutdown, MonitorAction.idleForce] := by
  rw [monitorTick_eq s inp hh]
  have h3 : inp.duration > 300 := lt_trans (by norm_num) hd
  have hf : shutdownFires inp = true := by simp [shutdownFires, hc, hd]
  simp [hf, h3, hi]

theorem shutdown_then_idle_same_tick_witness :
    (monitorTick monitorInit { duration := 1000, clientActive := false }).2 =
      [MonitorAction.shutdown, MonitorAction.idleForce] :=
  shutdown_then_idle_same_tick monitorInit
    { duration := 1000, clientActive := false } rfl rfl (by norm_num) rfl

/-- C4: on a live tick the idle flag is cleared whenever the duration is at
or below 300 seconds; the idle forcing is emitted exactly when the duration
exceeds 300 seconds with the flag clear (so a later episode re-forces); and
over any episode of consecutive ticks whose durations all exceed 300
seconds, started with the flag clear, the idle forcing occurs exactly once,
on the first tick of the episode. -/
theorem idle_force_once_per_episode (s : MonitorState) (inp : MonitorInput)
    (inputs : List MonitorInput) :
    (s.halted = false → inp.duration ≤ 300 →
      (monitorTick s inp).1.idleModeActive = false) ∧
    (s.halted = false →
      (MonitorAction.idleForce ∈ (monitorTick s inp).2 ↔
        inp.duration > 300 ∧ s.idleModeActive = false)) ∧
    (s.halted = false → s.idleModeActive = false →
      (∀ i ∈ inp :: inputs, i.duration > 300) →
      countOccAll MonitorAction.idleForce (monitorRun s (inp :: inputs)).2 = 1) := by
  refine ⟨?_, ?_, ?_⟩
  · intro hs2 hle
    have h3 : ¬ (inp.duration > 300) := not_lt.mpr hle
    rw [monitorTick_eq s inp hs2]
    simp [h3]
  · intro hs2
    rw [monitorTick_eq s inp hs2]
    by_cases hf : shutdownFires inp <;>
      by_cases h3 : inp.duration > 300 ∧ s.idleModeActive = false <;>
      simp [hf, h3]
  · intro hs2 hflag hall
    have h3 : inp.duration > 300 := hall inp (List.mem_cons_self _ _)
    simp only [monitorRun, countOccAll]
    rw [monitorTick_eq s inp hs2]
    by_cases hf : shutdownFires inp <;>
      simp [hf, h3, hflag, countOcc, countOcc_append] <;>
      exact idle_count_zero inputs
        (fun i hi => hall i (List.mem_cons_of_mem _ hi)) _ (Or.inl (by simp [h3]))

theorem idle_force_once_per_episode_witness :
    (monitorTick { idleModeActive := true, halted := false }
      { duration := 100, clientActive := false }).1.idleModeActive = false ∧
    countOccAll MonitorAction.idleForce
      (monitorRun monitorInit
        [{ duration := 301, clientActive := true },
         { duration := 306, clientActive := true }]).2 = 1 := by
  constructor
  · exact (idle_force_once_per_episode
      { idleModeActive := true, halted := false }
      { duration := 100, clientActive := false } []).1 rfl (by norm_num)
  · exact (idle_force_once_per_episode monitorInit
      { duration := 301, clientActive := true }
      [{ duration := 306, clientActive := true }]).2.2 rfl rfl
      (by simp [List.forall_mem_cons]; norm_num)

/-! ### The capture pipeline (src/final.py lines 130-163)

`capture_image` performs, in order: set `client_status["last_ping"]` under
`state_lock` (lines 132-133), `update_timer()` (line 135), `ledc.on()`
(line 136), build the timestamped filename (lines 138-140), then inside
`try` acquire `camera_lock` (line 144), log, run `camera.autofocus_cycle()`
(line 148) with a warning when it returns false, and `camera.capture_file(path)`
(line 155); the `with` block releases the lock on both the normal and the
exception path, `except` logs failures (lines 159-160), and `finally` sleeps
0.5 seconds and turns `ledc` off (lines 161-163).

The outcomes of the two camera calls are an environment; the function
returns the conceptual result of the pipeline (the path on success, the
caught exception message on failure — the source tracks it only via logs)
together with the trace of effects in source order. Exceptions raised by
`autofocus_cycle` or `capture_file` are the `exn` outcomes of the
environment; that the embedding is total reflects that the source catches
every such exception instead of crashing the process. -/

/-- A Python `datetime.now()` value at the granularity the program uses:
calendar fields down to seconds, plus the microsecond field that the
filename format string discards. -/
structure PyDateTime where
  year : Nat
  month : Nat
  day : Nat
  hour : Nat
  minute : Nat
  second : Nat
  micro : Nat
deriving DecidableEq

/-- Outcome of a Python call: a normal return or a raised exception. -/
inductive PyResult (α : Type) where
  | ok : α → PyResult α
  | exn : String → PyResult α
deriving DecidableEq

/-- Zero-padded two-digit field, as `%m`, `%d`, `%H`, `%M`, `%S` render. -/
def pad2 (n : Nat) : String :=
  if n < 10 then "0" ++ toString n else toString n

/-- Zero-padded four-digit year, as `%Y` renders. -/
def pad4 (n : Nat) : String :=
  if n < 10 then "000" ++ toString n
  else if n < 100 then "00" ++ toString n
  else if n < 1000 then "0" ++ toString n
  else toString n

/-- `datetime.now().strftime("%Y-%m-%dT%H_%M_%S")` of line 138: second
granularity, the microsecond field does not appear. -/
def captureTimestamp (t : PyDateTime) : String :=
  pad4 t.year ++ "-" ++ pad2 t.month ++ "-" ++ pad2 t.day ++ "T" ++
    pad2 t.hour ++ "_" ++ pad2 t.minute ++ "_" ++ pad2 t.second

/-- The image directory of line 19. -/
def IMAGE_DIRECTORY : String := "img/"

/-- `os.path.join` restricted to the shapes the program uses: an absolute
second component wins, a first component ending in the separator
concatenates directly, otherwise a separator is inserted. -/
def osPathJoin (a b : String) : String :=
  if b.startsWith "/" then b
  else if a.endsWith "/" ∨ a = "" then a ++ b
  else a ++ "/" ++ b

/-- The output path built at lines 138-140:
`os.path.join(IMAGE_DIRECTORY, "RF_pic_" + timestamp + ".jpeg")`. -/
def capturePath (t : PyDateTime) : String :=
  osPathJoin IMAGE_DIRECTORY ("RF_pic_" ++ captureTimestamp t ++ ".jpeg")

/-- Environment of one `capture_image` run: the two `datetime.now()` values
(line 133 and line 138) and the outcomes of the two camera calls. -/
structure CaptureEnv where
  pingTime : PyDateTime
  fileTime : PyDateTime
  autofocus : PyResult Bool
  captureFile : PyResult Unit
deriving DecidableEq

/-- Effects of `capture_image` in source order. -/
inductive CaptureEvent where
  | setLastPing (t : PyDateTime)
  | touchClock
  | ledcOn
  | acquireCamera
  | logInfo (msg : String)
  | logWarning (msg : String)
  | logError (msg : String)
  | autofocusCall
  | captureFileCall (path : String)
  | releaseCamera
  | sleepFeedback
  | ledcOff
deriving DecidableEq

/-- Conceptual outcome of a `capture_image` run. -/
inductive CaptureResult where
  | success (path : String)
  | failure (msg : String)
deriving DecidableEq

/-- The `capture_image` function of lines 130-163 as result plus effect
trace; see the section comment for the line-by-line mapping. -/
def capture_image (env : CaptureEnv) : CaptureResult × List CaptureEvent :=
  let path := capturePath env.fileTime
  let pre : List CaptureEvent :=
    [CaptureEvent.setLastPing env.pingTime, CaptureEvent.touchClock, CaptureEvent.ledcOn]
  let enter : List CaptureEvent :=
    [CaptureEvent.acquireCamera,
      CaptureEvent.logInfo ("Starting autofocus cycle for capture..."),
      CaptureEvent.autofocusCall]
  let cleanup : List CaptureEvent := [CaptureEvent.sleepFeedback, CaptureEvent.ledcOff]
  match env.autofocus with
  | PyResult.exn e =>
      (CaptureResult.failure e,
        pre ++ enter ++
          [CaptureEvent.releaseCamera, CaptureEvent.logError ("Capture failed: " ++ e)] ++
          cleanup)
  | PyResult.ok afOk =>
      let afLog : List CaptureEvent :=
        if afOk then [CaptureEvent.logInfo ("Autofocus complete.")]
        else [CaptureEvent.logWarning ("Autofocus cycle failed or was skipped.")]
      match env.captureFile with
      | PyResult.exn e =>
          (CaptureResult.failure e,
            pre ++ enter ++ afLog ++
              [CaptureEvent.captureFileCall path, CaptureEvent.releaseCamera,
                CaptureEvent.logError ("Capture failed: " ++ e)] ++
              cleanup)
      | PyResult.ok _ =>
          (CaptureResult.success path,
            pre ++ enter ++ afLog ++
              [CaptureEvent.captureFileCall path, CaptureEvent.releaseCamera,
                CaptureEvent.logInfo ("Captured: " ++ path)] ++
              cleanup)

/-- Recognizer for the lock-acquisition effect. -/
def isAcquire : CaptureEvent → Bool
  | CaptureEvent.acquireCamera => true
  | _ => false

/-- Recognizer for the lock-release effect. -/
def isRelease : CaptureEvent → Bool
  | CaptureEvent.releaseCamera => true
  | _ => false

/-- C5: if the autofocus call or the still-capture call raises, the run of
`capture_image` yields a failed result with the exception logged, the run
still ends by holding the feedback for the fixed duration and turning the
indicator LED off, and the camera lock is not left held (the acquire and
release effects balance); the totality of `capture_image` reflects that the
exception is caught rather than crashing the process. -/
theorem capture_failure_cleanup (env : CaptureEnv) (e : String)
    (h : env.autofocus = PyResult.exn e ∨
      ((∃ b, env.autofocus = PyResult.ok b) ∧ env.captureFile = PyResult.exn e)) :
    (capture_image env).1 = CaptureResult.failure e ∧
    CaptureEvent.logError ("Capture failed: " ++ e) ∈ (capture_image env).2 ∧
    (capture_image env).2.reverse.take 2 =
      [CaptureEvent.ledcOff, CaptureEvent.sleepFeedback] ∧
    countOcc CaptureEvent.acquireCamera (capture_image env).2 =
      countOcc CaptureEvent.releaseCamera (capture_image env).2 := by
  obtain ⟨pt, ft, af, cf⟩ := env
  rcases af with b | msg
  · rcases h with h | ⟨_, hc⟩
    · exact absurd h (by simp)
    · have hc2 : cf = PyResult.exn e := hc
      subst hc2
      cases b <;> exact ⟨rfl, by simp [capture_image], rfl, rfl⟩
  · rcases h with h | ⟨⟨b, hb⟩, _⟩
    · have h2 : msg = e := by
        have h3 : PyResult.exn (α := Bool) msg = PyResult.exn e := h
        injection h3
      subst h2
      exact ⟨rfl, by simp [capture_image], rfl, rfl⟩
    · exact absurd hb (by simp)

theorem capture_failure_cleanup_witness :
    (capture_image
      { pingTime := { year := 2025, month := 6, day := 7, hour := 8, minute := 9,
                      second := 10, micro := 0 },
        fileTime := { year := 2025, month := 6, day := 7, hour := 8, minute := 9,
                      second := 10, micro := 0 },
        autofocus := PyResult.ok true,
        captureFile := PyResult.exn ("disk full") }).1 =
      CaptureResult.failure ("disk full") ∧
    countOcc CaptureEvent.acquireCamera
      (capture_image
        { pingTime := { year := 2025, month := 6, day := 7, hour := 8, minute := 9,
                        second := 10, micro := 0 },
          fileTime := { year := 2025, month := 6, day := 7, hour := 8, minute := 9,
                        second := 10, micro := 0 },
          autofocus := PyResult.ok true,
          captureFile := PyResult.exn ("disk full") }).2 =
      countOcc CaptureEvent.releaseCamera
        (capture_image
          { pingTime := { year := 2025, month := 6, day := 7, hour := 8, minute := 9,
                          second := 10, micro := 0 },
            fileTime := { year := 2025, month := 6, day := 7, hour := 8, minute := 9,
                          second := 10, micro := 0 },
            autofocus := PyResult.ok true,
            captureFile := PyResult.exn ("disk full") }).2 := by
  have h := capture_failure_cleanup
    { pingTime := { year := 2025, month := 6, day := 7, hour := 8, minute := 9,
                    second := 10, micro := 0 },
      fileTime := { year := 2025, month := 6, day := 7, hour := 8, minute := 9,
                    second := 10, micro := 0 },
      autofocus := PyResult.ok true,
      captureFile := PyResult.exn ("disk full") }
    ("disk full") (Or.inr ⟨⟨true, rfl⟩, rfl⟩)
  exact ⟨h.1, h.2.2.2⟩

/-- C6: every run of `capture_image` performs, in order, the last-ping
update (line 133) and the activity-clock touch (line 135), then the
indicator LED on (line 136), and only then the camera-lock acquisition
(line 144): these are the first four effects of every trace. -/
theorem capture_effect_order (env : CaptureEnv) :
    (capture_image env).2.take 4 =
      [CaptureEvent.setLastPing env.pingTime, CaptureEvent.touchClock,
        CaptureEvent.ledcOn, CaptureEvent.acquireCamera] := by
  obtain ⟨pt, ft, af, cf⟩ := env
  rcases af with b | msg
  · cases b <;> rcases cf with u | msg2 <;> rfl
  · rfl

/-- C7: when the autofocus cycle returns false, the pipeline does not abort
early: the failure is logged as a non-fatal warning, the still capture is
still attempted, and the run produces a result — the success path when the
capture call returns, the failure path when it raises. -/
theorem autofocus_failure_nonfatal (env : CaptureEnv)
    (h : env.autofocus = PyResult.ok false) :
    CaptureEvent.logWarning ("Autofocus cycle failed or was skipped.") ∈
      (capture_image env).2 ∧
    CaptureEvent.captureFileCall (capturePath env.fileTime) ∈ (capture_image env).2 ∧
    (env.captureFile = PyResult.ok () →
      (capture_image env).1 = CaptureResult.success (capturePath env.fileTime)) ∧
    (∀ e : String, env.captureFile = PyResult.exn e →
      (capture_image env).1 = CaptureResult.failure e) := by
  obtain ⟨pt, ft, af, cf⟩ := env
  have h2 : af = PyResult.ok false := h
  subst h2
  rcases cf with u | msg
  · refine ⟨by simp [capture_image], by simp [capture_image], fun _ => rfl, fun e he => ?_⟩
    exact PyResult.noConfusion he
  · refine ⟨by simp [capture_image], by simp [capture_image], fun hu => ?_, fun e he => ?_⟩
    · exact PyResult.noConfusion hu
    · have h3 : PyResult.exn (α := Unit) msg = PyResult.exn e := he
      injection h3 with h4
      subst h4
      rfl

theorem autofocus_failure_nonfatal_witness :
    CaptureEvent.logWarning ("Autofocus cycle failed or was skipped.") ∈
      (capture_image
        { pingTime := { year := 2025, month := 6, day := 7, hour := 8, minute := 9,
                        second := 11, micro := 0 },
          fileTime := { year := 2025, month := 6, day := 7, hour := 8, minute := 9,
                        second := 11, micro := 0 },
          autofocus := PyResult.ok false,
          captureFile := PyResult.ok () }).2 ∧
    (capture_image
      { pingTime := { year := 2025, month := 6, day := 7, hour := 8, minute := 9,
                      second := 11, micro := 0 },
        fileTime := { year := 2025, month := 6, day := 7, hour := 8, minute := 9,
                      second := 11, micro := 0 },
        autofocus := PyResult.ok false,
        captureFile := PyResult.ok () }).1 =
      CaptureResult.success (capturePath
        { year := 2025, month := 6, day := 7, hour := 8, minute := 9,
          second := 11, micro := 0 }) := by
  have h := autofocus_failure_nonfatal
    { pingTime := { year := 2025, month := 6, day := 7, hour := 8, minute := 9,
                    second := 11, micro := 0 },
      fileTime := { year := 2025, month := 6, day := 7, hour := 8, minute := 9,
                    second := 11, micro := 0 },
      autofocus := PyResult.ok false,
      captureFile := PyResult.ok () } rfl
  exact ⟨h.1, h.2.2.1 rfl⟩

/-- Equality of two `datetime.now()` values at the granularity the filename
format of line 138 renders: all calendar fields down to the second agree;
the microsecond fields may differ. -/
def sameSecond (t1 t2 : PyDateTime) : Prop :=
  t1.year = t2.year ∧ t1.month = t2.month ∧ t1.day = t2.day ∧
    t1.hour = t2.hour ∧ t1.minute = t2.minute ∧ t1.second = t2.second

/-- The filesystem as a map from paths to contents; `camera.capture_file(path)`
(line 155) replaces the content stored at `path`. -/
def storeWrite (store : String → Option String) (p c : String) : String → Option String :=
  fun q => if q = p then some c else store q

/-- C10: the output path of the capture pipeline is determined by the wall
clock at second granularity only — two runs whose filename timestamps agree
down to the second (microseconds may differ) build the identical path — and
the later of two writes through that path overwrites the earlier image. -/
theorem same_second_capture_overwrites (t1 t2 : PyDateTime) (c1 c2 : String)
    (store : String → Option String) (h : sameSecond t1 t2) :
    capturePath t1 = capturePath t2 ∧
    storeWrite (storeWrite store (capturePath t1) c1) (capturePath t2) c2
      (capturePath t1) = some c2 := by
  obtain ⟨h1, h2, h3, h4, h5, h6⟩ := h
  have hp : capturePath t1 = capturePath t2 := by
    simp [capturePath, captureTimestamp, h1, h2, h3, h4, h5, h6]
  exact ⟨hp, by simp [storeWrite, hp]⟩

theorem same_second_capture_overwrites_witness :
    capturePath { year := 2024, month := 1, day := 2, hour := 3, minute := 4,
                  second := 5, micro := 111111 } =
      capturePath { year := 2024, month := 1, day := 2, hour := 3, minute := 4,
                    second := 5, micro := 999999 } ∧
    storeWrite
      (storeWrite (fun _ => none)
        (capturePath { year := 2024, month := 1, day := 2, hour := 3, minute := 4,
                       second := 5, micro := 111111 }) ("first"))
      (capturePath { year := 2024, month := 1, day := 2, hour := 3, minute := 4,
                     second := 5, micro := 999999 }) ("second")
      (capturePath { year := 2024, month := 1, day := 2, hour := 3, minute := 4,
                     second := 5, micro := 111111 }) = some ("second") :=
  same_second_capture_overwrites
    { year := 2024, month := 1, day := 2, hour := 3, minute := 4,
      second := 5, micro := 111111 }
    { year := 2024, month := 1, day := 2, hour := 3, minute := 4,
      second := 5, micro := 999999 }
    ("first") ("second") (fun _ => none) ⟨rfl, rfl, rfl, rfl, rfl, rfl⟩

/-! ### The single-flight blink signal (src/final.py lines 68-84)

`blink()` spawns a daemon thread running `blink_led`, which first attempts
`blink_lock.acquire(blocking=False)`; on failure it returns at once — no
queueing, no error — so a trigger that arrives while a sequence runs has no
effect. On success it performs the bounded 6-pulse sequence and releases the
lock in `finally`. The busy flag models `blink_lock` being held; the events
are the external stimuli (a `trigger()` call, and the completion of the
running sequence), the actions the observable outcomes. -/

/-- Whether `blink_lock` is currently held by a running blink sequence. -/
structure BlinkState where
  busy : Bool
deriving DecidableEq

/-- External stimuli of the blink signal: a `trigger()` call (a call of
`blink()`, line 68) and the completion of the running 6-pulse sequence
(the `finally` release of line 82). -/
inductive BlinkEvent where
  | trigger
  | finish
deriving DecidableEq

/-- Observable outcomes: a sequence starts (the non-blocking acquire
succeeded, line 72), or a running sequence completes and releases the lock. -/
inductive BlinkAction where
  | startSequence
  | completeSequence
deriving DecidableEq

/-- Initial blink state: the lock free. -/
def blinkInit : BlinkState := { busy := false }

/-- One stimulus of the blink signal: a trigger while busy returns
immediately with no effect (the failed non-blocking acquire of lines 72-73);
a trigger while free starts the sequence; completion clears the busy flag. -/
def blinkStep (s : BlinkState) : BlinkEvent → BlinkState × List BlinkAction
  | BlinkEvent.trigger =>
      if s.busy then (s, [])
      else ({ busy := true }, [BlinkAction.startSequence])
  | BlinkEvent.finish =>
      if s.busy then ({ busy := false }, [BlinkAction.completeSequence])
      else (s, [])

/-- A run of the blink signal over a list of stimuli. -/
def blinkRun (s : BlinkState) : List BlinkEvent → BlinkState × List BlinkAction
  | [] => (s, [])
  | ev :: rest =>
    let t := blinkStep s ev
    let r := blinkRun t.1 rest
    (r.1, t.2 ++ r.2)

theorem busy_false_of_ne (s : BlinkState) (hb : ¬ s.busy = true) : s.busy = false := by
  revert hb; cases s.busy <;> simp

/-- Across any run, the completed sequences never exceed the trigger calls
plus the sequence possibly already in flight at the start. -/
theorem blink_complete_le (evs : List BlinkEvent) :
    ∀ s : BlinkState,
      countOcc BlinkAction.completeSequence (blinkRun s evs).2 ≤
        countOcc BlinkEvent.trigger evs + (if s.busy then 1 else 0) := by
  induction evs with
  | nil => intro s; simp [blinkRun, countOcc]
  | cons ev rest ih =>
    intro s
    simp only [blinkRun, countOcc_append, countOcc]
    cases ev with
    | trigger =>
      by_cases hb : s.busy = true
      · have h1 := ih s
        simp [blinkStep, hb, countOcc] at *
        omega
      · have hb2 : s.busy = false := busy_false_of_ne s hb
        have h1 := ih { busy := true }
        simp [blinkStep, hb2, countOcc] at *
        omega
    | finish =>
      by_cases hb : s.busy = true
      · have h1 := ih { busy := false }
        simp [blinkStep, hb, countOcc] at *
        omega
      · have hb2 : s.busy = false := busy_false_of_ne s hb
        have h1 := ih s
        simp [blinkStep, hb2, countOcc] at *
        omega

/-- C8: a `trigger()` while a blink sequence is in progress is a no-op — the
state is unchanged and no action is emitted, with nothing queued and no
error; over every run from the free state the completed sequences never
exceed the trigger calls; and on the concrete run
trigger-trigger-finish-trigger-finish, three trigger calls forming two
non-overlapping windows complete exactly two sequences. -/
theorem blink_trigger_single_flight :
    (∀ s : BlinkState, s.busy = true → blinkStep s BlinkEvent.trigger = (s, [])) ∧
    (∀ evs : List BlinkEvent,
      countOcc BlinkAction.completeSequence (blinkRun blinkInit evs).2 ≤
        countOcc BlinkEvent.trigger evs) ∧
    (blinkRun blinkInit
      [BlinkEvent.trigger, BlinkEvent.trigger, BlinkEvent.finish,
        BlinkEvent.trigger, BlinkEvent.finish]).2 =
      [BlinkAction.startSequence, BlinkAction.completeSequence,
        BlinkAction.startSequence, BlinkAction.completeSequence] := by
  refine ⟨?_, ?_, by decide⟩
  · intro s hb
    simp [blinkStep, hb]
  · intro evs
    have h1 := blink_complete_le evs blinkInit
    simpa [blinkInit] using h1

theorem blink_trigger_single_flight_witness :
    blinkStep { busy := true } BlinkEvent.trigger = ({ busy := true }, []) ∧
    countOcc BlinkAction.completeSequence
      (blinkRun blinkInit [BlinkEvent.trigger, BlinkEvent.trigger]).2 ≤
      countOcc BlinkEvent.trigger [BlinkEvent.trigger, BlinkEvent.trigger] :=
  ⟨blink_trigger_single_flight.1 { busy := true } rfl,
    blink_trigger_single_flight.2.1 [BlinkEvent.trigger, BlinkEvent.trigger]⟩

/-! ### HTTP routes and the activity clock (src/final.py lines 62-66, 176-244)

The shared mutable state the routes touch: the global `timer` (last activity,
epoch seconds, guarded by `state_lock`), `client_status`, and the LED objects.
`update_timer()` (lines 62-66) sets `timer = time.time()`. The passive status
routes `device_status` (lines 176-178), `led1_status` (lines 222-224),
`led2_status` (lines 226-228) and `uv_status` (lines 230-232) only build a
JSON response from reads; the toggle routes (lines 234-244) call
`update_timer()` first. -/

/-- The process-wide mutable state read and written by the HTTP routes. -/
structure ServerState where
  timer : Seconds
  lastPing : Option PyDateTime
  clientConnected : Bool
  led1Active : Bool
  led2Active : Bool
deriving DecidableEq

/-- `update_timer()` of lines 62-66: sets the global `timer` to `time.time()`. -/
def update_timer (now : Seconds) (s : ServerState) : ServerState :=
  { s with timer := now }

/-- The idle duration the shutdown monitor derives at line 106:
`time.time() - timer`. -/
def idleDuration (now : Seconds) (s : ServerState) : Seconds :=
  now - s.timer

/-- The `/device_status` route (lines 176-178): `jsonify(online=True)`. -/
def device_status (s : ServerState) : ServerState × Bool :=
  (s, true)

/-- The `/led1_status` route (lines 222-224): `jsonify(active=led1.is_active)`. -/
def led1_status_route (s : ServerState) : ServerState × Bool :=
  (s, s.led1Active)

/-- The `/led2_status` route (lines 226-228). -/
def led2_status_route (s : ServerState) : ServerState × Bool :=
  (s, s.led2Active)

/-- The `/uv_status` route (lines 230-232):
`jsonify(UV_A=led1.is_active, UV_B=led2.is_active)`. -/
def uv_status_route (s : ServerState) : ServerState × (Bool × Bool) :=
  (s, (s.led1Active, s.led2Active))

/-- The `/led1_toggle` route (lines 234-238): `update_timer()`, toggle, and
report the new state. -/
def toggle_led1_route (now : Seconds) (s : ServerState) : ServerState × Bool :=
  let s1 := update_timer now s
  let s2 := { s1 with led1Active := !s1.led1Active }
  (s2, s2.led1Active)

/-- The `/led2_toggle` route (lines 240-244). -/
def toggle_led2_route (now : Seconds) (s : ServerState) : ServerState × Bool :=
  let s1 := update_timer now s
  let s2 := { s1 with led2Active := !s1.led2Active }
  (s2, s2.led2Active)

/-- C9: the passive status reads — `/device_status`, `/led1_status`,
`/led2_status` and `/uv_status` — leave the activity timer (and with it the
idle duration at any later instant) exactly as it was, and also leave the
liveness fields unchanged; so polling them cannot reset the idle timers. -/
theorem status_reads_preserve_timer (s : ServerState) (now : Seconds) :
    (device_status s).1.timer = s.timer ∧
    (led1_status_route s).1.timer = s.timer ∧
    (led2_status_route s).1.timer = s.timer ∧
    (uv_status_route s).1.timer = s.timer ∧
    idleDuration now (device_status s).1 = idleDuration now s ∧
    idleDuration now (led1_status_route s).1 = idleDuration now s ∧
    idleDuration now (led2_status_route s).1 = idleDuration now s ∧
    idleDuration now (uv_status_route s).1 = idleDuration now s ∧
    (device_status s).1.lastPing = s.lastPing ∧
    (device_status s).1.clientConnected = s.clientConnected ∧
    (uv_status_route s).1.lastPing = s.lastPing ∧
    (uv_status_route s).1.clientConnected = s.clientConnected :=
  ⟨rfl, rfl, rfl, rfl, rfl, rfl, rfl, rfl, rfl, rfl, rfl, rfl⟩

/-! ### Camera arbitration between streaming and capture (src/final.py lines 142-163, 254-274)

`generate_frames` loops: it acquires `camera_lock`, grabs one frame
(`camera.capture_array()`, line 258), leaves the `with` block (releasing the
lock), then encodes and yields the frame before looping. `capture_image`
runs its pre-steps without the camera, then enters `with camera_lock`
(line 144) for the autofocus-plus-capture pair, and leaves the block on the
normal path or on the exception path — `with` releases the lock on both —
before the `except`/`finally` tail. The interleaving of one streamer thread
and one capturer thread around the lock is the step relation below; the
lock value is the holder, drawn from streamer, capturer, or none. -/

/-- The possible holders of `camera_lock`. -/
inductive Holder where
  | streamer
  | capturer
deriving DecidableEq

/-- Control points of the `generate_frames` loop body. -/
inductive StreamerPC where
  | ready
  | critical
  | encoding
deriving DecidableEq

/-- Control points of `capture_image`: the camera-free pre-steps, the
acquisition point of line 144, the held autofocus-plus-capture section, the
post-release tail (logging, `except`, `finally`), and completion. -/
inductive CapturerPC where
  | pre
  | ready
  | critical
  | post
  | done
deriving DecidableEq

/-- A global state of the two camera clients and the lock. -/
structure ArbiterState where
  lock : Option Holder
  spc : StreamerPC
  cpc : CapturerPC
deriving DecidableEq

/-- One interleaving step of the streamer thread or the capturer thread.
Acquisition requires the lock to be free (a `with lock` entry blocks
otherwise); leaving a `with` block releases the lock, and the capturer
leaves its held section on the normal path or on the exception path — both
release. -/
inductive ArbiterStep : ArbiterState → ArbiterState → Prop where
  | streamerAcquire (s : ArbiterState) (hl : s.lock = none) (hp : s.spc = StreamerPC.ready) :
      ArbiterStep s { s with lock := some Holder.streamer, spc := StreamerPC.critical }
  | streamerRelease (s : ArbiterState) (hp : s.spc = StreamerPC.critical) :
      ArbiterStep s { s with lock := none, spc := StreamerPC.encoding }
  | streamerLoop (s : ArbiterState) (hp : s.spc = StreamerPC.encoding) :
      ArbiterStep s { s with spc := StreamerPC.ready }
  | capturerStart (s : ArbiterState) (hp : s.cpc = CapturerPC.pre) :
      ArbiterStep s { s with cpc := CapturerPC.ready }
  | capturerAcquire (s : ArbiterState) (hl : s.lock = none) (hp : s.cpc = CapturerPC.ready) :
      ArbiterStep s { s with lock := some Holder.capturer, cpc := CapturerPC.critical }
  | capturerReleaseNormal (s : ArbiterState) (hp : s.cpc = CapturerPC.critical) :
      ArbiterStep s { s with lock := none, cpc := CapturerPC.post }
  | capturerReleaseException (s : ArbiterState) (hp : s.cpc = CapturerPC.critical) :
      ArbiterStep s { s with lock := none, cpc := CapturerPC.post }
  | capturerFinish (s : ArbiterState) (hp : s.cpc = CapturerPC.post) :
      ArbiterStep s { s with cpc := CapturerPC.done }

/-- Initial state: lock free, streamer at the top of its loop, capturer in
its camera-free pre-steps. -/
def arbiterInit : ArbiterState :=
  { lock := none, spc := StreamerPC.ready, cpc := CapturerPC.pre }

/-- The states an interleaving can reach from the initial state. -/
def ArbiterReachable (s : ArbiterState) : Prop :=
  Relation.ReflTransGen ArbiterStep arbiterInit s

/-- The mutual-exclusion invariant: the lock names the streamer exactly when
the streamer is in its held section, and the capturer exactly when the
capturer is in its held section. -/
def ArbiterInv (s : ArbiterState) : Prop :=
  (s.lock = some Holder.streamer ↔ s.spc = StreamerPC.critical) ∧
  (s.lock = some Holder.capturer ↔ s.cpc = CapturerPC.critical)

theorem arbiterInv_init : ArbiterInv arbiterInit := by
  constructor <;> simp [arbiterInit]

theorem arbiterInv_step (s t : ArbiterState) (h : ArbiterInv s) (hst : ArbiterStep s t) :
    ArbiterInv t := by
  obtain ⟨h1, h2⟩ := h
  cases hst with
  | streamerAcquire hl hp =>
    refine ⟨by simp, ?_⟩
    simp only [ArbiterInv]
    constructor
    · intro hx; simp at hx
    · intro hx
      exact absurd (h2.mpr hx) (by simp [hl])
  | streamerRelease hp =>
    refine ⟨by simp, ?_⟩
    constructor
    · intro hx; simp at hx
    · intro hx
      have h3 : s.lock = some Holder.streamer := h1.mpr hp
      have h4 : s.lock = some Holder.capturer := h2.mpr hx
      rw [h3] at h4
      exact absurd h4 (by simp)
  | streamerLoop hp =>
    refine ⟨?_, by simpa using h2⟩
    have h3 : ¬ s.lock = some Holder.streamer := by
      intro hx
      rw [h1.mp hx] at hp
      exact absurd hp (by simp)
    simp [h3]
  | capturerStart hp =>
    refine ⟨by simpa using h1, ?_⟩
    have h3 : ¬ s.lock = some Holder.capturer := by
      intro hx
      rw [h2.mp hx] at hp
      exact absurd hp (by simp)
    simp [h3]
  | capturerAcquire hl hp =>
    refine ⟨?_, by simp⟩
    constructor
    · intro hx; simp at hx
    · intro hx
      exact absurd (h1.mpr hx) (by simp [hl])
  | capturerReleaseNormal hp =>
    refine ⟨?_, by simp⟩
    constructor
    · intro hx; simp at hx
    · intro hx
      have h3 : s.lock = some Holder.capturer := h2.mpr hp
      have h4 : s.lock = some Holder.streamer := h1.mpr hx
      rw [h3] at h4
      exact absurd h4 (by simp)
  | capturerReleaseException hp =>
    refine ⟨?_, by simp⟩
    constructor
    · intro hx; simp at hx
    · intro hx
      have h3 : s.lock = some Holder.capturer := h2.mpr hp
      have h4 : s.lock = some Holder.streamer := h1.mpr hx
      rw [h3] at h4
      exact absurd h4 (by simp)
  | capturerFinish hp =>
    refine ⟨by simpa using h1, ?_⟩
    have h3 : ¬ s.lock = some Holder.capturer := by
      intro hx
      rw [h2.mp hx] at hp
      exact absurd hp (by simp)
    simp [h3]

theorem arbiterInv_reachable (s : ArbiterState) (h : ArbiterReachable s) : ArbiterInv s := by
  induction h with
  | refl => exact arbiterInv_init
  | tail _ hstep ih => exact arbiterInv_step _ _ ih hstep

/-- C1: in every interleaving of the streaming frame producer and the
capture pipeline, at most one of them is in its camera-held section at any
instant — the lock value (the holder, one of streamer, capturer or none)
names whoever is — and the holder releases on every exit path: once the
capturer has left its held section, on the normal or the exception path, the
lock no longer names it, and likewise for the streamer. -/
theorem camera_mutual_exclusion (s : ArbiterState) (h : ArbiterReachable s) :
    (¬ (s.spc = StreamerPC.critical ∧ s.cpc = CapturerPC.critical)) ∧
    (s.lock = some Holder.streamer ↔ s.spc = StreamerPC.critical) ∧
    (s.lock = some Holder.capturer ↔ s.cpc = CapturerPC.critical) ∧
    ((s.cpc = CapturerPC.post ∨ s.cpc = CapturerPC.done) →
      ¬ s.lock = some Holder.capturer) ∧
    ((s.spc = StreamerPC.encoding ∨ s.spc = StreamerPC.ready) →
      ¬ s.lock = some Holder.streamer) := by
  obtain ⟨h1, h2⟩ := arbiterInv_reachable s h
  refine ⟨?_, h1, h2, ?_, ?_⟩
  · rintro ⟨hs, hc⟩
    have h3 : s.lock = some Holder.streamer := h1.mpr hs
    have h4 : s.lock = some Holder.capturer := h2.mpr hc
    rw [h3] at h4
    exact absurd h4 (by simp)
  · intro hc hx
    rcases hc with hc | hc <;> rw [h2.mp hx] at hc <;> exact absurd hc (by simp)
  · intro hs hx
    rcases hs with hs | hs <;> rw [h1.mp hx] at hs <;> exact absurd hs (by simp)

theorem camera_mutual_exclusion_witness :
    ¬ (({ lock := some Holder.streamer, spc := StreamerPC.critical,
          cpc := CapturerPC.pre } : ArbiterState).spc = StreamerPC.critical ∧
       ({ lock := some Holder.streamer, spc := StreamerPC.critical,
          cpc := CapturerPC.pre } : ArbiterState).cpc = CapturerPC.critical) :=
  (camera_mutual_exclusion
    { lock := some Holder.streamer, spc := StreamerPC.critical, cpc := CapturerPC.pre }
    (Relation.ReflTransGen.single (ArbiterStep.streamerAcquire arbiterInit rfl rfl))).1

end RpiCham
